import Mathlib

/-!
Verification development for the gamepatchnote-charts data pipeline.

The repository contains four JavaScript programs:
* `src/unnamed/part_000` — the "aggressive" Steam charts fetcher
  (`SteamDataFetcher`): multi-source merge, sampling, massively parallel
  player-count fetching with retries, validation, ranking.
* `src/unnamed/part_001` — the Supabase-backed sync (`SteamChartsSync`),
  with a session player-count cache.
* `src/.github/scripts/fetch-steam-charts.js` — the basic fetcher
  (`SteamDataFetcher`, 10-concurrent variant).
* `src/.github/scripts/fetch-steamspy-data.js` — the SteamSpy fetcher.

Below, each relevant function is shallowly embedded as an executable Lean
definition.  HTTP transport is modelled by oracles (`Nat → Option ApiJson`
gives the outcome of each attempt of a request); JavaScript `Map` objects
are modelled by insertion-ordered association lists; JavaScript falsiness
of strings/numbers is modelled explicitly (`jsOrName`, `jsOrNat`).
-/

/-! ## JavaScript `Map` model: insertion-ordered association list -/

/-- Key test used by the `Map` model (JavaScript keys compared with `===`). -/
def keyIs {α : Type} (k : Nat) (p : Nat × α) : Bool := p.1 == k

/-- `Map.prototype.has`. -/
def mapHas {α : Type} (m : List (Nat × α)) (k : Nat) : Bool :=
  m.any (keyIs k)

/-- `Map.prototype.get`, returning `none` for a missing key. -/
def mapGet {α : Type} (m : List (Nat × α)) (k : Nat) : Option α :=
  (m.find? (keyIs k)).map (·.2)

/-- `Map.prototype.set`: replace the value in place when the key exists
(keeping its insertion position), otherwise append at the end. -/
def mapSet {α : Type} (m : List (Nat × α)) (k : Nat) (v : α) : List (Nat × α) :=
  if mapHas m k then m.map (fun p => if keyIs k p then (k, v) else p)
  else m ++ [(k, v)]

theorem keyIs_self {α : Type} (k : Nat) (v : α) : keyIs k (k, v) = true := by
  simp [keyIs]

theorem keyIs_ne {α : Type} (k k' : Nat) (v : α) (h : k' ≠ k) :
    keyIs k' (k, v) = false := by
  simp [keyIs, Ne.symm h]

theorem find?_replace_self {α : Type} (k : Nat) (v : α) :
    ∀ (t : List (Nat × α)), t.any (keyIs k) = true →
    (t.map (fun p => if keyIs k p then (k, v) else p)).find? (keyIs k)
      = some (k, v)
  | [], h => by simp at h
  | p :: t, h => by
    by_cases hk : keyIs k p = true
    · rw [List.map_cons, if_pos hk, List.find?_cons_of_pos _ (keyIs_self k v)]
    · have ht : t.any (keyIs k) = true := by
        simp only [List.any_cons, Bool.or_eq_true] at h
        exact h.resolve_left hk
      rw [List.map_cons, if_neg hk, List.find?_cons_of_neg _ hk]
      exact find?_replace_self k v t ht

theorem find?_replace_ne {α : Type} (k k' : Nat) (v : α) (h : k' ≠ k) :
    ∀ (t : List (Nat × α)),
    (t.map (fun p => if keyIs k p then (k, v) else p)).find? (keyIs k')
      = t.find? (keyIs k')
  | [] => by simp
  | p :: t => by
    by_cases hk : keyIs k p = true
    · have hpk : p.1 = k := by simpa [keyIs] using hk
      have hp' : ¬ keyIs k' p = true := by simp [keyIs, hpk, Ne.symm h]
      rw [List.map_cons, if_pos hk,
        List.find?_cons_of_neg _ (by simp [keyIs_ne k k' v h]),
        List.find?_cons_of_neg _ hp']
      exact find?_replace_ne k k' v h t
    · by_cases hk' : keyIs k' p = true
      · rw [List.map_cons, if_neg hk, List.find?_cons_of_pos _ hk',
          List.find?_cons_of_pos _ hk']
      · rw [List.map_cons, if_neg hk, List.find?_cons_of_neg _ hk',
          List.find?_cons_of_neg _ hk']
        exact find?_replace_ne k k' v h t

theorem find?_append_single_self {α : Type} (k : Nat) (v : α) :
    ∀ (t : List (Nat × α)), t.any (keyIs k) = false →
    (t ++ [(k, v)]).find? (keyIs k) = some (k, v)
  | [], _ => by
    rw [List.nil_append, List.find?_cons_of_pos _ (keyIs_self k v)]
  | p :: t, h => by
    simp only [List.any_cons, Bool.or_eq_false_iff] at h
    rw [List.cons_append, List.find?_cons_of_neg _ (by simp [h.1])]
    exact find?_append_single_self k v t h.2

theorem find?_append_single_ne {α : Type} (k k' : Nat) (v : α) (h : k' ≠ k) :
    ∀ (t : List (Nat × α)),
    (t ++ [(k, v)]).find? (keyIs k') = t.find? (keyIs k')
  | [] => by
    rw [List.nil_append, List.find?_cons_of_neg _ (by simp [keyIs_ne k k' v h])]
  | p :: t => by
    by_cases hk' : keyIs k' p = true
    · rw [List.cons_append, List.find?_cons_of_pos _ hk', List.find?_cons_of_pos _ hk']
    · rw [List.cons_append, List.find?_cons_of_neg _ hk', List.find?_cons_of_neg _ hk']
      exact find?_append_single_ne k k' v h t

theorem mapGet_mapSet_self {α : Type} (m : List (Nat × α)) (k : Nat) (v : α) :
    mapGet (mapSet m k v) k = some v := by
  cases h : mapHas m k with
  | true =>
    have h' : m.any (keyIs k) = true := h
    rw [mapGet, mapSet, if_pos h, find?_replace_self k v m h', Option.map_some']
  | false =>
    have h' : m.any (keyIs k) = false := h
    rw [mapGet, mapSet, if_neg (by simp [h]), find?_append_single_self k v m h',
      Option.map_some']

theorem mapGet_mapSet_ne {α : Type} (m : List (Nat × α)) (k k' : Nat) (v : α)
    (h : k' ≠ k) : mapGet (mapSet m k v) k' = mapGet m k' := by
  cases hm : mapHas m k with
  | true => rw [mapGet, mapSet, if_pos hm, find?_replace_ne k k' v h m]; rfl
  | false => rw [mapGet, mapSet, if_neg (by simp [hm]), find?_append_single_ne k k' v h m]; rfl

/-! ## Remote metric lookup payloads

`GetNumberOfCurrentPlayers` answers `{response: {result, player_count}}`;
both inner fields are numbers (an absent `player_count` is read through
`|| 0`, so it is modelled as the number 0). -/

/-- The `response` object of a player-count payload. -/
structure PlayerResp where
  result : Nat
  player_count : Nat
deriving DecidableEq, Repr

/-- A parsed JSON body, whose `response` field may be absent. -/
structure ApiJson where
  response : Option PlayerResp
deriving DecidableEq, Repr

/-- `data?.response?.result === 1 ? (data.response.player_count || 0) : 0`
applied to the (possibly `null`) return of `makeRequest`. -/
def parsePlayers : Option ApiJson → Nat
  | none => 0
  | some j =>
    match j.response with
    | none => 0
    | some r => if r.result = 1 then r.player_count else 0

/-! ## `makeRequest` of `src/unnamed/part_000` (`SteamDataFetcher`)

The HTTP transport is an oracle `attempt : Nat → Option ApiJson`:
`attempt i = some j` means the `i`-th try returns an ok response with
body `j`; `attempt i = none` means it throws or is non-2xx.  The trace
records, besides the result, the number of tries made, the backoff delay
awaited before each retry (the loop body runs `if (i > 0) await
this.sleep(100 * i)` after a failed non-final try, so the delay recorded
for the first retry is 0: no sleep call is made), and the number of
`this.failedRequests++` increments (one per failed try). -/

/-- Observable trace of one `makeRequest` call of `part_000`. -/
structure ReqTrace where
  result : Option ApiJson
  attempts : Nat
  delays : List Nat
  failIncr : Nat
deriving DecidableEq, Repr

/-- The retry loop of `part_000`'s `makeRequest`, from try `i` with
`fuel` remaining loop iterations (`fuel = retries - i`).  On the last
try (`fuel = 1`, i.e. `i === retries - 1`) a failure returns `null`. -/
def makeRequestAux (attempt : Nat → Option ApiJson) : Nat → Nat → ReqTrace
  | 0, _ => ⟨none, 0, [], 0⟩
  | fuel + 1, i =>
    match attempt i with
    | some j => ⟨some j, 1, [], 0⟩
    | none =>
      if fuel = 0 then ⟨none, 1, [], 1⟩
      else
        let rest := makeRequestAux attempt fuel (i + 1)
        ⟨rest.result, rest.attempts + 1,
          (if i = 0 then 0 else 100 * i) :: rest.delays, rest.failIncr + 1⟩

/-- `makeRequest(url, retries)` of `part_000` (default `retries` is
`MAX_RETRIES = 5`). -/
def makeRequest (attempt : Nat → Option ApiJson) (retries : Nat) : ReqTrace :=
  makeRequestAux attempt retries 0

/-! ## `makeRequest` of `.github/scripts/fetch-steam-charts.js`

Same loop with `retries = 3`, but the catch block always sleeps
`1000 * (i + 1)` before a non-final retry, and rethrows the error on the
final try (`result = none` models the rethrow reaching the caller). -/

/-- Observable trace of one `makeRequest` call of `fetch-steam-charts.js`. -/
structure ChartsReqTrace where
  result : Option ApiJson
  attempts : Nat
  delays : List Nat
deriving DecidableEq, Repr

/-- The retry loop of `fetch-steam-charts.js`'s `makeRequest`. -/
def makeRequestChartsAux (attempt : Nat → Option ApiJson) : Nat → Nat → ChartsReqTrace
  | 0, _ => ⟨none, 0, []⟩
  | fuel + 1, i =>
    match attempt i with
    | some j => ⟨some j, 1, []⟩
    | none =>
      if fuel = 0 then ⟨none, 1, []⟩
      else
        let rest := makeRequestChartsAux attempt fuel (i + 1)
        ⟨rest.result, rest.attempts + 1, 1000 * (i + 1) :: rest.delays⟩

/-- `makeRequest(url, retries = 3)` of `fetch-steam-charts.js`. -/
def makeRequestCharts (attempt : Nat → Option ApiJson) (retries : Nat) : ChartsReqTrace :=
  makeRequestChartsAux attempt retries 0

/-! ## `fetchPlayerCountsParallel` of `part_000` (result mapping)

`appIds.map(appId => this.fetchWithRetry(url).then(data => ({appId,
players})).catch(...))`: one `{appId, players}` object per input id;
`fetchWithRetry`/`makeRequest` never reject (`null` on exhaustion), and
the final `.catch` maps any residual rejection to `{appId, players: 0}`,
so the mapping is total. -/

/-- One element of the `playerResults` array. -/
structure Outcome where
  appId : Nat
  players : Nat
deriving DecidableEq, Repr

/-- The per-id lookup of `fetchPlayerCountsParallel`: run `makeRequest`
with `MAX_RETRIES = 5` on the id's own attempt oracle and parse the
player count. -/
def fetchOneOutcome (attempt : Nat → Option ApiJson) (appId : Nat) : Outcome :=
  { appId := appId, players := parsePlayers (makeRequest attempt 5).result }

/-- The result list of `fetchPlayerCountsParallel` (the batching loop
only awaits the already-created promises; the values collected into
`results` are exactly one outcome per input id, in input order).
`oracle id i` is the response of the `i`-th try for identifier `id`. -/
def fetchPlayerCountsParallel (oracle : Nat → Nat → Option ApiJson)
    (appIds : List Nat) : List Outcome :=
  appIds.map (fun appId => fetchOneOutcome (oracle appId) appId)

/-- Total increment of `this.failedRequests` contributed by the fetch
phase: one increment per failed try of every lookup. -/
def totalFailIncr (oracle : Nat → Nat → Option ApiJson) (appIds : List Nat) : Nat :=
  (appIds.map (fun appId => (makeRequest (oracle appId) 5).failIncr)).sum

/-! ## Retry-loop facts (claims C4, C5) -/

theorem makeRequestAux_attempts_le (attempt : Nat → Option ApiJson) :
    ∀ (fuel i : Nat), (makeRequestAux attempt fuel i).attempts ≤ fuel
  | 0, _ => Nat.le_refl 0
  | fuel + 1, i => by
    rw [makeRequestAux]
    cases attempt i with
    | some j => exact Nat.le_add_left 1 fuel
    | none =>
      by_cases hf : fuel = 0
      · simp [hf]
      · simp only [hf, if_neg, not_false_iff]
        exact Nat.succ_le_succ (makeRequestAux_attempts_le attempt fuel (i + 1))

theorem makeRequestChartsAux_attempts_le (attempt : Nat → Option ApiJson) :
    ∀ (fuel i : Nat), (makeRequestChartsAux attempt fuel i).attempts ≤ fuel
  | 0, _ => Nat.le_refl 0
  | fuel + 1, i => by
    rw [makeRequestChartsAux]
    cases attempt i with
    | some j => exact Nat.le_add_left 1 fuel
    | none =>
      by_cases hf : fuel = 0
      · simp [hf]
      · simp only [hf, if_neg, not_false_iff]
        exact Nat.succ_le_succ (makeRequestChartsAux_attempts_le attempt fuel (i + 1))

theorem makeRequest_allFail (attempt : Nat → Option ApiJson)
    (h : ∀ i, i < 5 → attempt i = none) :
    makeRequest attempt 5 = ⟨none, 5, [0, 100, 200, 300], 5⟩ := by
  have h0 := h 0 (by omega)
  have h1 := h 1 (by omega)
  have h2 := h 2 (by omega)
  have h3 := h 3 (by omega)
  have h4 := h 4 (by omega)
  simp [makeRequest, makeRequestAux, h0, h1, h2, h3, h4]

theorem makeRequestCharts_allFail (attempt : Nat → Option ApiJson)
    (h : ∀ i, i < 3 → attempt i = none) :
    makeRequestCharts attempt 3 = ⟨none, 3, [1000, 2000]⟩ := by
  have h0 := h 0 (by omega)
  have h1 := h 1 (by omega)
  have h2 := h 2 (by omega)
  simp [makeRequestCharts, makeRequestChartsAux, h0, h1, h2]

/-- C5 (counterexample): in `fetch-steam-charts.js`'s `makeRequest`, the
first retry is NOT dispatched immediately: for a lookup whose every try
fails, the delay awaited before the first retry is 1000 ms, not 0 — the
catch block sleeps `1000 * (i + 1)` even after the very first failure. -/
theorem c5_first_retry_delay_counterexample :
    (makeRequestCharts (fun _ => none) 3).delays.head? = some 1000 ∧
    (makeRequestCharts (fun _ => none) 3).delays.head? ≠ some 0 := by
  constructor
  · rw [makeRequestCharts_allFail (fun _ => none) (fun _ _ => rfl)]
    rfl
  · rw [makeRequestCharts_allFail (fun _ => none) (fun _ _ => rfl)]
    simp

/-- C5 (amended): each retry loop makes at most its `retries` many tries
(`MAX_RETRIES = 5` in `part_000`, 3 in `fetch-steam-charts.js`).  In
`part_000` the first retry is immediate (delay 0, no sleep call) and
retry `j ≥ 2` waits `100 * (j - 1)` (`delayUnit × attemptIndex` for the
failed try's index), so for an always-failing lookup the delays are
`[0, 100, 200, 300]`; in `fetch-steam-charts.js` every retry, including
the first, waits `1000 * (i + 1)` after the failed try `i`, giving
`[1000, 2000]`.  In both loops the delays strictly increase after the
first failure. -/
theorem c5_retry_backoff_amended (attempt : Nat → Option ApiJson) :
    (makeRequest attempt 5).attempts ≤ 5 ∧
    (makeRequestCharts attempt 3).attempts ≤ 3 ∧
    ((∀ i, i < 5 → attempt i = none) →
      (makeRequest attempt 5).delays = [0, 100, 200, 300] ∧
      (makeRequest attempt 5).delays.Chain' (· < ·)) ∧
    ((∀ i, i < 3 → attempt i = none) →
      (makeRequestCharts attempt 3).delays = [1000, 2000] ∧
      (makeRequestCharts attempt 3).delays.Chain' (· < ·)) := by
  refine ⟨makeRequestAux_attempts_le attempt 5 0,
    makeRequestChartsAux_attempts_le attempt 3 0, ?_, ?_⟩
  · intro h
    rw [makeRequest_allFail attempt h]
    exact ⟨rfl, by simp [List.chain'_cons]⟩
  · intro h
    rw [makeRequestCharts_allFail attempt h]
    exact ⟨rfl, by simp [List.chain'_cons]⟩

/-- C5 (witness): the amended retry/backoff theorem applied to the
always-failing transport. -/
theorem c5_retry_backoff_amended_witness :
    (makeRequest (fun _ => none) 5).delays = [0, 100, 200, 300] ∧
    (makeRequestCharts (fun _ => none) 3).delays = [1000, 2000] :=
  ⟨((c5_retry_backoff_amended (fun _ => none)).2.2.1 (fun _ _ => rfl)).1,
   ((c5_retry_backoff_amended (fun _ => none)).2.2.2 (fun _ _ => rfl)).1⟩

/-- C4 (counterexample): an identifier whose remote lookup fails on all
`MAX_RETRIES = 5` tries increments the run-level failure counter
`this.failedRequests` five times (once per failed try), not exactly
once as the claim states. -/
theorem c4_failCounter_counterexample :
    (makeRequest (fun _ => none) 5).failIncr = 5 ∧
    (makeRequest (fun _ => none) 5).failIncr ≠ 1 := by
  rw [makeRequest_allFail (fun _ => none) (fun _ _ => rfl)]
  exact ⟨rfl, by decide⟩

/-- C4 (amended): `fetchPlayerCountsParallel` produces exactly one
outcome per input identifier, in input order; an identifier whose every
try fails yields the outcome `{appId, players: 0}` (failure is recorded
as a zero metric — the code outcome carries no separate `succeeded`
flag) and contributes `MAX_RETRIES = 5` increments (one per failed try)
to the failure counter.  No exception reaches the caller: `makeRequest`
returns `null` on exhaustion and the `.catch` handler maps any residual
rejection to `{appId, players: 0}`, so the embedding is a total
function. -/
theorem c4_fetch_outcomes_amended (oracle : Nat → Nat → Option ApiJson)
    (appIds : List Nat) :
    (fetchPlayerCountsParallel oracle appIds).map (·.appId) = appIds ∧
    (fetchPlayerCountsParallel oracle appIds).length = appIds.length ∧
    ∀ id, (∀ i, i < 5 → oracle id i = none) →
      fetchOneOutcome (oracle id) id = ⟨id, 0⟩ ∧
      (makeRequest (oracle id) 5).failIncr = 5 := by
  refine ⟨?_, ?_, ?_⟩
  · rw [fetchPlayerCountsParallel, List.map_map]
    exact List.map_id'' (fun _ => rfl) appIds
  · simp [fetchPlayerCountsParallel]
  · intro id h
    rw [fetchOneOutcome, makeRequest_allFail (oracle id) h]
    exact ⟨rfl, rfl⟩

/-- C4 (witness): the amended theorem applied to a single identifier 7
whose transport always fails. -/
theorem c4_fetch_outcomes_amended_witness :
    (fetchPlayerCountsParallel (fun _ _ => none) [7]).map (·.appId) = [7] ∧
    fetchOneOutcome (fun _ => none) 7 = ⟨7, 0⟩ ∧
    (makeRequest (fun _ => none) 5).failIncr = 5 :=
  ⟨(c4_fetch_outcomes_amended (fun _ _ => none) [7]).1,
   ((c4_fetch_outcomes_amended (fun _ _ => none) [7]).2.2 7 (fun _ _ => rfl)).1,
   ((c4_fetch_outcomes_amended (fun _ _ => none) [7]).2.2 7 (fun _ _ => rfl)).2⟩

/-! ## Source adapters and PHASE 2 merge of `part_000`

The three candidate sources produce records of fixed shapes:
* `fetchMostPlayedGames` → `{appId, rank, currentPlayers, peak24h}` (no
  `name`, no `owners`);
* `fetchSteamSpyGames` → `{appId, name, currentPlayers: 0, owners,
  averagePlaytime, source: 'steamspy'}` with `name` always a non-empty
  string (`gameData.name || Game ${appId}`);
* `fetchAllSteamApps` → `{appid, name}`.

Merged records carry every field any source can contribute; a JavaScript
`undefined` field is `none`. -/

/-- One entry of `fetchMostPlayedGames()` (Steam Charts source). -/
structure ChartsGame where
  appId : Nat
  rank : Nat
  currentPlayers : Nat
  peak24h : Nat
deriving DecidableEq, Repr

/-- One entry of `fetchSteamSpyGames()` (SteamSpy source). -/
structure SpyGame where
  appId : Nat
  name : String
  owners : Nat
  averagePlaytime : Nat
deriving DecidableEq, Repr

/-- One entry of `fetchAllSteamApps()` (full Steam app list). -/
structure SteamApp where
  appid : Nat
  name : String
deriving DecidableEq, Repr

/-- A value of the `allGamesMap` built in PHASE 2. -/
structure MergedGame where
  appId : Nat
  name : Option String
  currentPlayers : Nat
  peak24h : Option Nat
  owners : Option Nat
  averagePlaytime : Option Nat
  rank : Option Nat
  priority : Nat
  source : String
deriving DecidableEq, Repr

/-- `{...game, priority: 1, source: 'steam-charts'}` for a Steam Charts
game (its adapter never sets `name`, `owners` or `averagePlaytime`). -/
def chartsCand (g : ChartsGame) : MergedGame :=
  { appId := g.appId, name := none, currentPlayers := g.currentPlayers,
    peak24h := some g.peak24h, owners := none, averagePlaytime := none,
    rank := some g.rank, priority := 1, source := "steam-charts" }

/-- `{...game, priority: 2, source: 'steamspy'}` for a SteamSpy game
(its adapter sets `currentPlayers: 0` and never `peak24h` or `rank`). -/
def spyCand (g : SpyGame) : MergedGame :=
  { appId := g.appId, name := some g.name, currentPlayers := 0,
    peak24h := none, owners := some g.owners,
    averagePlaytime := some g.averagePlaytime, rank := none,
    priority := 2, source := "steamspy" }

/-- The priority-3 record built inline for an app of the full list. -/
def appCand (a : SteamApp) : MergedGame :=
  { appId := a.appid, name := some a.name, currentPlayers := 0,
    peak24h := none, owners := none, averagePlaytime := none,
    rank := none, priority := 3, source := "steam-all-apps" }

/-- `existing.name = existing.name || game.name`: JavaScript string
falsiness (an absent name or the empty string is replaced). -/
def jsOrName (existing : Option String) (n : String) : Option String :=
  match existing with
  | none => some n
  | some s => if s = "" then some n else some s

/-- PHASE 2, priority-1 pass: `allGamesMap.set(game.appId, {...game,
priority: 1, source: 'steam-charts'})`. -/
def chartsMergeStep (m : List (Nat × MergedGame)) (g : ChartsGame) :
    List (Nat × MergedGame) :=
  mapSet m g.appId (chartsCand g)

/-- PHASE 2, priority-2 pass: backfill `name` (only when falsy) and
assign `owners` on an existing record, else insert the SteamSpy record. -/
def spyMergeStep (m : List (Nat × MergedGame)) (g : SpyGame) :
    List (Nat × MergedGame) :=
  match mapGet m g.appId with
  | some existing =>
      mapSet m g.appId
        { existing with name := jsOrName existing.name g.name,
                        owners := some g.owners }
  | none => mapSet m g.appId (spyCand g)

/-- PHASE 2, priority-3 pass: insert only unseen app ids. -/
def appsMergeStep (m : List (Nat × MergedGame)) (a : SteamApp) :
    List (Nat × MergedGame) :=
  if mapHas m a.appid then m else mapSet m a.appid (appCand a)

/-- PHASE 2 of `fetchAllSteamData` in `part_000`: the three passes over
`allGamesMap`, then `Array.from(allGamesMap.values())`. -/
def mergePhase2 (charts : List ChartsGame) (spy : List SpyGame)
    (apps : List SteamApp) : List MergedGame :=
  let m1 := charts.foldl chartsMergeStep []
  let m2 := spy.foldl spyMergeStep m1
  let m3 := apps.foldl appsMergeStep m2
  m3.map (·.2)

/-! ## Merge facts (claim C3) -/

theorem spyMergeStep_existing (m : List (Nat × MergedGame)) (g : SpyGame)
    (existing : MergedGame) (h : mapGet m g.appId = some existing) :
    mapGet (spyMergeStep m g) g.appId =
      some { existing with name := jsOrName existing.name g.name,
                           owners := some g.owners } := by
  rw [spyMergeStep, h]
  exact mapGet_mapSet_self m g.appId _

theorem spyMergeStep_new (m : List (Nat × MergedGame)) (g : SpyGame)
    (h : mapGet m g.appId = none) :
    mapGet (spyMergeStep m g) g.appId = some (spyCand g) := by
  rw [spyMergeStep, h]
  exact mapGet_mapSet_self m g.appId _

theorem appsMergeStep_existing (m : List (Nat × MergedGame)) (a : SteamApp)
    (h : mapHas m a.appid = true) : appsMergeStep m a = m := by
  rw [appsMergeStep, if_pos h]

theorem appsMergeStep_new (m : List (Nat × MergedGame)) (a : SteamApp)
    (h : mapHas m a.appid = false) :
    mapGet (appsMergeStep m a) a.appid = some (appCand a) := by
  rw [appsMergeStep, if_neg (by simp [h])]
  exact mapGet_mapSet_self m a.appid _

/-- C3: the PHASE 2 merge never lets a lower-priority source overwrite a
populated field of, or downgrade the priority of, a record inserted by a
higher-priority source.  Processing a SteamSpy candidate whose id is
already in the map keeps the stored `priority`, `currentPlayers`
(staticMetric), `peak24h` (peakHint) and `rank` untouched, keeps a
non-falsy `name`, and backfills `name` only if it was absent (the
`owners` assignment writes a field no higher-priority record populates:
`chartsCand` always has `owners = none`); an unseen id is inserted as
the authoritative record (`spyCand`/`appCand` with the source's
priority); a full-app-list candidate is ignored entirely when its id is
seen; other keys of the map are untouched.  On the spec's three-source
example the merge yields exactly 3 candidates, where id 10 keeps metric
500 from priority 1 and gains the backfilled name "Foo" from
priority 2. -/
theorem c3_merge_backfill_only :
    (∀ (m : List (Nat × MergedGame)) (g : SpyGame) (existing : MergedGame),
      mapGet m g.appId = some existing →
      ∃ e', mapGet (spyMergeStep m g) g.appId = some e' ∧
        e'.priority = existing.priority ∧
        e'.currentPlayers = existing.currentPlayers ∧
        e'.peak24h = existing.peak24h ∧
        e'.rank = existing.rank ∧
        e'.source = existing.source ∧
        (∀ s, existing.name = some s → s ≠ "" → e'.name = some s) ∧
        (existing.name = none → e'.name = some g.name)) ∧
    (∀ (m : List (Nat × MergedGame)) (g : SpyGame),
      mapGet m g.appId = none →
      mapGet (spyMergeStep m g) g.appId = some (spyCand g)) ∧
    (∀ (m : List (Nat × MergedGame)) (a : SteamApp),
      mapHas m a.appid = true → appsMergeStep m a = m) ∧
    (∀ (m : List (Nat × MergedGame)) (a : SteamApp),
      mapHas m a.appid = false →
      mapGet (appsMergeStep m a) a.appid = some (appCand a)) ∧
    (∀ (m : List (Nat × MergedGame)) (g : SpyGame) (k : Nat),
      k ≠ g.appId → mapGet (spyMergeStep m g) k = mapGet m k) ∧
    mergePhase2 [⟨10, 3, 500, 600⟩] [⟨10, "Foo", 7, 0⟩, ⟨20, "Bar", 5, 0⟩]
        [⟨30, "Baz"⟩] =
      [{ appId := 10, name := some "Foo", currentPlayers := 500,
         peak24h := some 600, owners := some 7, averagePlaytime := none,
         rank := some 3, priority := 1, source := "steam-charts" },
       spyCand ⟨20, "Bar", 5, 0⟩, appCand ⟨30, "Baz"⟩] := by
  refine ⟨?_, spyMergeStep_new, appsMergeStep_existing, appsMergeStep_new, ?_, ?_⟩
  · intro m g existing h
    refine ⟨_, spyMergeStep_existing m g existing h,
      rfl, rfl, rfl, rfl, rfl, ?_, ?_⟩
    · intro s hs hne
      simp [jsOrName, hs, hne]
    · intro hn
      simp [jsOrName, hn]
  · intro m g k hk
    rw [spyMergeStep]
    cases mapGet m g.appId with
    | some existing => exact mapGet_mapSet_ne m g.appId k _ hk
    | none => exact mapGet_mapSet_ne m g.appId k _ hk
  · rfl

/-- C3 (witness): the backfill-only properties applied to the concrete
map holding the priority-1 record for id 10 and the SteamSpy candidate
`{id: 10, name: "Foo"}`, and the insert/skip properties at ids 20/10. -/
theorem c3_merge_backfill_only_witness :
    (∃ e', mapGet (spyMergeStep [(10, chartsCand ⟨10, 3, 500, 600⟩)]
        ⟨10, "Foo", 7, 0⟩) 10 = some e' ∧
      e'.priority = (chartsCand ⟨10, 3, 500, 600⟩).priority ∧
      e'.currentPlayers = (chartsCand ⟨10, 3, 500, 600⟩).currentPlayers ∧
      e'.peak24h = (chartsCand ⟨10, 3, 500, 600⟩).peak24h ∧
      e'.rank = (chartsCand ⟨10, 3, 500, 600⟩).rank ∧
      e'.source = (chartsCand ⟨10, 3, 500, 600⟩).source ∧
      (∀ s, (chartsCand ⟨10, 3, 500, 600⟩).name = some s → s ≠ "" →
        e'.name = some s) ∧
      ((chartsCand ⟨10, 3, 500, 600⟩).name = none → e'.name = some "Foo")) ∧
    mapGet (spyMergeStep [] ⟨20, "Bar", 5, 0⟩) 20 = some (spyCand ⟨20, "Bar", 5, 0⟩) ∧
    appsMergeStep [(10, chartsCand ⟨10, 3, 500, 600⟩)] ⟨10, "Qux"⟩ =
      [(10, chartsCand ⟨10, 3, 500, 600⟩)] ∧
    mapGet (appsMergeStep [] ⟨30, "Baz"⟩) 30 = some (appCand ⟨30, "Baz"⟩) ∧
    mapGet (spyMergeStep [(10, chartsCand ⟨10, 3, 500, 600⟩)] ⟨10, "Foo", 7, 0⟩) 20 =
      mapGet [(10, chartsCand ⟨10, 3, 500, 600⟩)] 20 :=
  ⟨c3_merge_backfill_only.1 _ ⟨10, "Foo", 7, 0⟩ _ rfl,
   c3_merge_backfill_only.2.1 [] ⟨20, "Bar", 5, 0⟩ rfl,
   c3_merge_backfill_only.2.2.1 _ ⟨10, "Qux"⟩ rfl,
   c3_merge_backfill_only.2.2.2.1 [] ⟨30, "Baz"⟩ rfl,
   c3_merge_backfill_only.2.2.2.2.1 _ ⟨10, "Foo", 7, 0⟩ 20 (by decide)⟩

/-! ## PHASE 3 sampling of `part_000` (claim C1)

`randomSample(array, size)` shuffles a copy of the array and returns
`shuffled.slice(0, size)`.  The shuffle (`sort(() => 0.5 -
Math.random())`) is modelled by an explicit `shuffle` function
parameter; `size` is the JavaScript number `remainingSlots =
TARGET_GAMES - priority1And2.length`, which can be negative, so it is
an `Int` and `slice` gets the ECMAScript negative-end semantics. -/

/-- `MIN_GAMES_REQUIRED` of `part_000`. -/
def MIN_GAMES_REQUIRED : Nat := 10000

/-- `TARGET_GAMES` of `part_000`. -/
def TARGET_GAMES : Nat := 50000

/-- `Array.prototype.slice(0, e)`: a negative `e` counts back from the
end of the array (`max(length + e, 0)` elements), a non-negative `e` is
clamped to the length. -/
def jsSliceTake {α : Type} (l : List α) (e : Int) : List α :=
  if e < 0 then l.take ((l.length + e).toNat) else l.take e.toNat

/-- `randomSample(array, size)` of `part_000`. -/
def randomSample {α : Type} (shuffle : List α → List α) (array : List α)
    (size : Int) : List α :=
  if (array.length : Int) ≤ size then array
  else jsSliceTake (shuffle array) size

/-- PHASE 3 of `fetchAllSteamData` in `part_000`: when the merged pool
exceeds `targetGames`, keep all priority ≤ 2 games and sample
`targetGames - |kept|` from the priority-3 games. -/
def phase3Sampling (shuffle : List MergedGame → List MergedGame)
    (targetGames : Nat) (allUniqueGames : List MergedGame) : List MergedGame :=
  if targetGames < allUniqueGames.length then
    let priority1And2 := allUniqueGames.filter (fun g => g.priority ≤ 2)
    let priority3Games := allUniqueGames.filter (fun g => g.priority == 3)
    let remainingSlots : Int := (targetGames : Int) - priority1And2.length
    priority1And2 ++ randomSample shuffle priority3Games remainingSlots
  else allUniqueGames

/-- A merged pool with two priority-1 candidates and two priority-3
candidates, sampled to `targetSize = 1`. -/
def samplerExampleInput : List MergedGame :=
  [chartsCand ⟨1, 1, 100, 100⟩, chartsCand ⟨2, 2, 50, 50⟩,
   appCand ⟨3, "C"⟩, appCand ⟨4, "D"⟩]

/-- C1: evaluation at the failing input.  With `targetSize = 1` the kept
(priority ≤ 2) set already has 2 ≥ 1 elements, so by the claim the
output must contain no priority-3 candidate and have
`min(targetSize, kept + pool) = 1` elements; but `remainingSlots =
1 - 2 = -1` reaches `shuffled.slice(0, -1)`, which under ECMAScript
negative-end semantics returns all but the last of the 2 priority-3
candidates — the code's output keeps one priority-3 candidate and has 3
elements. -/
theorem c1_sampler_keeps_priority3_when_kept_exceeds_target :
    (samplerExampleInput.filter (fun g => g.priority ≤ 2)).length = 2 ∧
    phase3Sampling (fun l => l) 1 samplerExampleInput =
      [chartsCand ⟨1, 1, 100, 100⟩, chartsCand ⟨2, 2, 50, 50⟩, appCand ⟨3, "C"⟩] ∧
    (phase3Sampling (fun l => l) 1 samplerExampleInput).countP
      (fun g => g.priority == 3) = 1 ∧
    (phase3Sampling (fun l => l) 1 samplerExampleInput).length = 3 := by
  refine ⟨rfl, ?_, ?_, rfl⟩ <;> decide

/-! ## Trend classification (claim C7) -/

/-- `calculateTrending(current, peak24h)`, identical in `part_000` and
`fetch-steam-charts.js`.  `!peak24h` is true exactly for the number 0
here; the division is modelled exactly over `ℚ` — no claim depends on
floating-point rounding because the `ratio > 0.7` branch and the final
fallthrough both return 'down'. -/
def calculateTrending (current peak24h : ℚ) : String :=
  if peak24h = 0 ∨ peak24h = current then "stable"
  else
    let ratio := current / peak24h
    if ratio > 9 / 10 then "stable"
    else if ratio > 7 / 10 then "down"
    else "down"

/-- Modelled from the spec (§4.6): the simplified two-way classifier
without the `ratio > 0.7` branch — `stable` exactly when the peak is
zero/missing, equals the current value, or the ratio exceeds 0.9;
`down` otherwise. -/
def calculateTrendingSimplified (current peak24h : ℚ) : String :=
  if peak24h = 0 ∨ peak24h = current then "stable"
  else if current / peak24h > 9 / 10 then "stable"
  else "down"

/-- C7: the trend classifier containing the `ratio > 0.7` branch is
extensionally equal to the simplified two-way classifier without it —
the branch never changes the result, since the subsequent fallthrough
also returns 'down'. -/
theorem c7_calculateTrending_eq_simplified (current peak24h : ℚ) :
    calculateTrending current peak24h =
      calculateTrendingSimplified current peak24h := by
  unfold calculateTrending calculateTrendingSimplified
  by_cases h1 : peak24h = 0 ∨ peak24h = current
  · simp [h1]
  · by_cases h2 : current / peak24h > 9 / 10
    · simp [h1, h2]
    · by_cases h3 : current / peak24h > 7 / 10 <;> simp [h1, h2, h3]

/-! ## PHASE 5 aggregation of `part_000` (claim C6) -/

/-- JavaScript `x || d` for an optional number field (0 is falsy). -/
def jsOrNat (o : Option Nat) (d : Nat) : Nat :=
  match o with
  | none => d
  | some n => if n = 0 then d else n

/-- JavaScript `s || d` for an optional string field ("" is falsy). -/
def jsOrStr (o : Option String) (d : String) : String :=
  match o with
  | none => d
  | some s => if s = "" then d else s

/-- A record pushed onto `gamesWithPlayers` in PHASE 5.  `rank` is the
property the ranking pass adds afterwards; it is 0 until assigned (the
JavaScript object simply lacks the property before that). -/
structure FinalGame where
  name : String
  appId : Nat
  currentPlayers : Nat
  peak24h : Nat
  trending : String
  source : String
  owners : Nat
  rank : Nat
deriving DecidableEq, Repr

/-- The record pushed onto `gamesWithPlayers` for a fetch result `res`
joined with its candidate `gameInfo`: `finalPlayerCount =
Math.max(result.players, gameInfo.currentPlayers || 0)`. -/
def joinedRecord (res : Outcome) (gameInfo : MergedGame) : FinalGame :=
  let finalPlayerCount := max res.players gameInfo.currentPlayers
  { name := jsOrStr gameInfo.name ("Game " ++ toString res.appId),
    appId := res.appId,
    currentPlayers := finalPlayerCount,
    peak24h := jsOrNat gameInfo.peak24h finalPlayerCount,
    trending := calculateTrending (finalPlayerCount : ℚ)
      ((jsOrNat gameInfo.peak24h finalPlayerCount : Nat) : ℚ),
    source := gameInfo.source,
    owners := jsOrNat gameInfo.owners 0,
    rank := 0 }

/-- The PHASE 5 loop body for one fetch result: look its id up in
`gameMap`; keep the record only when `result.players > 0 ||
gameInfo.currentPlayers > 0`. -/
def joinOutcome (gameMap : List (Nat × MergedGame)) (res : Outcome) :
    Option FinalGame :=
  match mapGet gameMap res.appId with
  | none => none
  | some gameInfo =>
    if 0 < res.players ∨ 0 < gameInfo.currentPlayers then
      some (joinedRecord res gameInfo)
    else none

theorem joinOutcome_get_some (gameMap : List (Nat × MergedGame)) (res : Outcome)
    (gameInfo : MergedGame) (hg : mapGet gameMap res.appId = some gameInfo) :
    joinOutcome gameMap res =
      if 0 < res.players ∨ 0 < gameInfo.currentPlayers then
        some (joinedRecord res gameInfo)
      else none := by
  rw [joinOutcome, hg]

theorem joinOutcome_get_none (gameMap : List (Nat × MergedGame)) (res : Outcome)
    (hg : mapGet gameMap res.appId = none) : joinOutcome gameMap res = none := by
  rw [joinOutcome, hg]

/-- PHASE 5 of `fetchAllSteamData` in `part_000`: `gameMap = new
Map(gamesToProcess.map(g => [g.appId, g]))`, then one pass over
`playerResults` pushing the joined records. -/
def buildGamesWithPlayers (gamesToProcess : List MergedGame)
    (playerResults : List Outcome) : List FinalGame :=
  let gameMap := gamesToProcess.foldl (fun m g => mapSet m g.appId g) []
  playerResults.filterMap (joinOutcome gameMap)

theorem joinOutcome_some (gameMap : List (Nat × MergedGame)) (res : Outcome)
    (r : FinalGame) (h : joinOutcome gameMap res = some r) :
    0 < r.currentPlayers ∧
    ∃ gameInfo, mapGet gameMap res.appId = some gameInfo ∧
      r.currentPlayers = max res.players gameInfo.currentPlayers := by
  cases hg : mapGet gameMap res.appId with
  | none => rw [joinOutcome_get_none gameMap res hg] at h; cases h
  | some gameInfo =>
    rw [joinOutcome_get_some gameMap res gameInfo hg] at h
    by_cases hc : 0 < res.players ∨ 0 < gameInfo.currentPlayers
    · rw [if_pos hc] at h
      injection h with h
      subst h
      refine ⟨?_, gameInfo, rfl, rfl⟩
      show 0 < max res.players gameInfo.currentPlayers
      omega
    · rw [if_neg hc] at h; cases h

/-- C6: joining a fetch outcome with its candidate by id sets the metric
to `max(fetchedMetric, staticMetric)` (the candidate's `currentPlayers`,
0 when the source provided none), drops the joined record exactly when
that maximum is 0, and consequently every record of the built dataset
has a positive metric. -/
theorem c6_aggregator_metric_positive :
    (∀ (gamesToProcess : List MergedGame) (playerResults : List Outcome),
      ∀ r ∈ buildGamesWithPlayers gamesToProcess playerResults,
        0 < r.currentPlayers) ∧
    (∀ (gameMap : List (Nat × MergedGame)) (res : Outcome)
       (gameInfo : MergedGame), mapGet gameMap res.appId = some gameInfo →
      (max res.players gameInfo.currentPlayers = 0 →
        joinOutcome gameMap res = none) ∧
      (∀ r, joinOutcome gameMap res = some r →
        r.currentPlayers = max res.players gameInfo.currentPlayers ∧
        0 < r.currentPlayers)) ∧
    (∀ (gameMap : List (Nat × MergedGame)) (res : Outcome),
      mapGet gameMap res.appId = none → joinOutcome gameMap res = none) := by
  refine ⟨?_, ?_, ?_⟩
  · intro gamesToProcess playerResults r hr
    rw [buildGamesWithPlayers] at hr
    obtain ⟨res, -, hres⟩ := List.mem_filterMap.mp hr
    exact (joinOutcome_some _ res r hres).1
  · intro gameMap res gameInfo hg
    constructor
    · intro hmax
      rw [joinOutcome_get_some gameMap res gameInfo hg, if_neg (by omega)]
    · intro r hr
      obtain ⟨hpos, gi', hg', hmax⟩ := joinOutcome_some gameMap res r hr
      rw [hg] at hg'
      injection hg' with hg'
      subst hg'
      exact ⟨hmax, hpos⟩
  · intro gameMap res hg
    exact joinOutcome_get_none gameMap res hg

/-- C6 (witness): the join applied to a concrete candidate map — id 10
with static metric 500 joined with a fetched metric 42 keeps
`max(42, 500) = 500 > 0`; id 20 with static metric 0 and fetched
metric 0 is dropped; an id absent from the map is dropped. -/
theorem c6_aggregator_metric_positive_witness :
    (joinOutcome [(20, spyCand ⟨20, "Bar", 5, 0⟩)] ⟨20, 0⟩ = none) ∧
    (∀ r, joinOutcome [(10, chartsCand ⟨10, 3, 500, 600⟩)] ⟨10, 42⟩ = some r →
      r.currentPlayers = max 42 500 ∧ 0 < r.currentPlayers) ∧
    (joinOutcome [(10, chartsCand ⟨10, 3, 500, 600⟩)] ⟨99, 42⟩ = none) :=
  ⟨(c6_aggregator_metric_positive.2.1 [(20, spyCand ⟨20, "Bar", 5, 0⟩)]
      ⟨20, 0⟩ (spyCand ⟨20, "Bar", 5, 0⟩) rfl).1 rfl,
   (c6_aggregator_metric_positive.2.1 [(10, chartsCand ⟨10, 3, 500, 600⟩)]
      ⟨10, 42⟩ (chartsCand ⟨10, 3, 500, 600⟩) rfl).2,
   c6_aggregator_metric_positive.2.2 [(10, chartsCand ⟨10, 3, 500, 600⟩)]
      ⟨99, 42⟩ rfl⟩

/-! ## Sort and rank assignment (claim C8)

`gamesWithPlayers.sort((a, b) => b.currentPlayers - a.currentPlayers)`
is an ECMAScript stable sort whose comparator orders by descending
`currentPlayers`; it is modelled by the stable `List.mergeSort`.  The
rank pass `gamesWithPlayers.forEach((game, index) => { game.rank =
index + 1 })` is modelled positionally. -/

/-- The comparator-induced order: `a` may stay before `b` iff
`b.currentPlayers - a.currentPlayers <= 0`. -/
def playersDescLe (a b : FinalGame) : Bool :=
  decide (b.currentPlayers ≤ a.currentPlayers)

/-- The PHASE 5/6 sort of `part_000` (same shape in
`fetch-steamspy-data.js`'s `fetchAllGames`). -/
def sortByPlayersDesc (l : List FinalGame) : List FinalGame :=
  l.mergeSort playersDescLe

/-- The rank-assignment pass from position `i`. -/
def assignRanksFrom (i : Nat) : List FinalGame → List FinalGame
  | [] => []
  | g :: t => { g with rank := i + 1 } :: assignRanksFrom (i + 1) t

/-- `sortedGames.forEach((game, index) => { game.rank = index + 1 })`. -/
def assignRanks (l : List FinalGame) : List FinalGame := assignRanksFrom 0 l

theorem assignRanksFrom_map_rank :
    ∀ (l : List FinalGame) (i : Nat),
    (assignRanksFrom i l).map (·.rank) = List.range' (i + 1) l.length
  | [], _ => rfl
  | g :: t, i => by
    rw [assignRanksFrom, List.map_cons, assignRanksFrom_map_rank t (i + 1),
      List.length_cons, List.range'_succ]

theorem assignRanksFrom_map_players :
    ∀ (l : List FinalGame) (i : Nat),
    (assignRanksFrom i l).map (·.currentPlayers) = l.map (·.currentPlayers)
  | [], _ => rfl
  | g :: t, i => by
    rw [assignRanksFrom, List.map_cons, List.map_cons,
      assignRanksFrom_map_players t (i + 1)]

theorem playersDescLe_trans (a b c : FinalGame) :
    playersDescLe a b → playersDescLe b c → playersDescLe a c := by
  simp only [playersDescLe, decide_eq_true_eq]
  omega

theorem playersDescLe_total (a b : FinalGame) :
    playersDescLe a b || playersDescLe b a := by
  simp only [playersDescLe, Bool.or_eq_true, decide_eq_true_eq]
  omega

/-- C8: after sorting and rank assignment, the ranks are exactly the
sequence `1..N` (`N` the number of surviving records), `currentPlayers`
is non-increasing along the list (i.e. as rank increases), and the sort
is stable: the records holding any fixed metric value `m` appear in the
same order as in the pre-sort list (the aggregator output, which follows
merge-insertion order). -/
theorem c8_rank_dense_sorted_stable (l : List FinalGame) :
    (assignRanks (sortByPlayersDesc l)).map (·.rank) = List.range' 1 l.length ∧
    (assignRanks (sortByPlayersDesc l)).Pairwise
      (fun a b => b.currentPlayers ≤ a.currentPlayers) ∧
    ∀ m : Nat, (sortByPlayersDesc l).filter (fun g => g.currentPlayers == m) =
      l.filter (fun g => g.currentPlayers == m) := by
  refine ⟨?_, ?_, ?_⟩
  · rw [assignRanks, assignRanksFrom_map_rank, sortByPlayersDesc,
      List.length_mergeSort]
  · have hs : (sortByPlayersDesc l).Pairwise
        (fun a b => b.currentPlayers ≤ a.currentPlayers) := by
      have hb : (List.mergeSort l playersDescLe).Pairwise
          (fun a b => playersDescLe a b = true) :=
        List.sorted_mergeSort playersDescLe_trans playersDescLe_total l
      exact hb.imp (by simp [playersDescLe])
    have hmap := assignRanksFrom_map_players (sortByPlayersDesc l) 0
    have h1 : ((sortByPlayersDesc l).map (·.currentPlayers)).Pairwise
        (fun a b => b ≤ a) := List.pairwise_map.mpr hs
    rw [← hmap] at h1
    exact List.pairwise_map.mp h1
  · intro m
    have hperm : List.Perm
        ((sortByPlayersDesc l).filter (fun g => g.currentPlayers == m))
        (l.filter (fun g => g.currentPlayers == m)) :=
      (List.mergeSort_perm l playersDescLe).filter _
    have hpw : (l.filter (fun g => g.currentPlayers == m)).Pairwise
        (fun a b => playersDescLe a b = true) := by
      apply List.pairwise_of_forall_mem_list
      intro a ha b hb
      have ha' := (List.mem_filter.mp ha).2
      have hb' := (List.mem_filter.mp hb).2
      simp only [beq_iff_eq] at ha' hb'
      simp [playersDescLe, ha', hb']
    have hsub : List.Sublist (l.filter (fun g => g.currentPlayers == m))
        (sortByPlayersDesc l) :=
      List.sublist_mergeSort playersDescLe_trans playersDescLe_total hpw
        (List.filter_sublist l)
    have hsub2 : List.Sublist (l.filter (fun g => g.currentPlayers == m))
        ((sortByPlayersDesc l).filter (fun g => g.currentPlayers == m)) := by
      have h2 := hsub.filter (fun g => g.currentPlayers == m)
      have h3 : List.filter (fun a => a.currentPlayers == m && a.currentPlayers == m) l
          = List.filter (fun g => g.currentPlayers == m) l :=
        List.filter_congr (fun x _ => by cases hx : x.currentPlayers == m <;> simp [hx])
      rwa [List.filter_filter, h3] at h2
    exact (hsub2.eq_of_length hperm.length_eq.symm).symm

/-! ## Validation and the full pipeline of `part_000` (claim C9) -/

/-- The validation failure message of `part_000`: `FAILED: Only N games
with player data found. Minimum required: M` (decorations omitted). -/
def mkValidationError (found minRequired : Nat) : String :=
  "FAILED: Only " ++ toString found ++
    " games with player data found. Minimum required: " ++ toString minRequired

/-- The dataset built before validation: PHASE 2 merge, PHASE 3
sampling, PHASE 4 player-count fetching, PHASE 5 join. -/
def pipelineGames (shuffle : List MergedGame → List MergedGame)
    (oracle : Nat → Nat → Option ApiJson) (targetGames : Nat)
    (charts : List ChartsGame) (spy : List SpyGame) (apps : List SteamApp) :
    List FinalGame :=
  let allUniqueGames := mergePhase2 charts spy apps
  let gamesToProcess := phase3Sampling shuffle targetGames allUniqueGames
  let appIds := gamesToProcess.map (·.appId)
  buildGamesWithPlayers gamesToProcess (fetchPlayerCountsParallel oracle appIds)

/-- `fetchAllSteamData` of `part_000` (PHASES 2-5, validation, sort and
rank).  The adapters, shuffle and transport are parameters; the code's
constants `MIN_GAMES_REQUIRED = 10000` and `TARGET_GAMES = 50000`
instantiate `minRequired`/`targetGames`.  Every phase other than
validation is a total function — each adapter and per-item fetch
swallows its own failures — so the `throw` on a below-minimum count is
the only error the pipeline can produce. -/
def fetchAllSteamData (shuffle : List MergedGame → List MergedGame)
    (oracle : Nat → Nat → Option ApiJson) (minRequired targetGames : Nat)
    (charts : List ChartsGame) (spy : List SpyGame) (apps : List SteamApp) :
    Except String (List FinalGame) :=
  let gamesWithPlayers := pipelineGames shuffle oracle targetGames charts spy apps
  if gamesWithPlayers.length < minRequired then
    Except.error (mkValidationError gamesWithPlayers.length minRequired)
  else
    Except.ok (assignRanks (sortByPlayersDesc gamesWithPlayers))

/-- C9: the run fails exactly when the validated count is below the
configured minimum, with a single terminal error whose message carries
the observed count and the threshold; otherwise it succeeds with the
ranked dataset (no partial dataset is ever returned as success); and
every error the pipeline can produce is this below-threshold error —
per-item and per-source failures are absorbed into the total
per-phase functions and never surface. -/
theorem c9_validator_threshold (shuffle : List MergedGame → List MergedGame)
    (oracle : Nat → Nat → Option ApiJson) (minRequired targetGames : Nat)
    (charts : List ChartsGame) (spy : List SpyGame) (apps : List SteamApp) :
    ((pipelineGames shuffle oracle targetGames charts spy apps).length < minRequired →
      fetchAllSteamData shuffle oracle minRequired targetGames charts spy apps =
        Except.error (mkValidationError
          (pipelineGames shuffle oracle targetGames charts spy apps).length
          minRequired)) ∧
    (minRequired ≤ (pipelineGames shuffle oracle targetGames charts spy apps).length →
      fetchAllSteamData shuffle oracle minRequired targetGames charts spy apps =
        Except.ok (assignRanks (sortByPlayersDesc
          (pipelineGames shuffle oracle targetGames charts spy apps)))) ∧
    (∀ e, fetchAllSteamData shuffle oracle minRequired targetGames charts spy apps =
        Except.error e →
      e = mkValidationError
        (pipelineGames shuffle oracle targetGames charts spy apps).length minRequired ∧
      (pipelineGames shuffle oracle targetGames charts spy apps).length < minRequired) := by
  refine ⟨?_, ?_, ?_⟩
  · intro h
    rw [fetchAllSteamData, if_pos h]
  · intro h
    rw [fetchAllSteamData, if_neg (by omega)]
  · intro e he
    rw [fetchAllSteamData] at he
    by_cases h : (pipelineGames shuffle oracle targetGames charts spy apps).length
        < minRequired
    · rw [if_pos h] at he
      injection he with he
      exact ⟨he.symm, h⟩
    · rw [if_neg h] at he
      cases he

/-- C9 (witness): with empty sources the validated count is 0, so a
configured minimum of 1 aborts the run with the error carrying `0` and
`1`; with one priority-1 candidate holding static metric 500 and a
transport that always fails, the count is 1 ≥ 1 and the run succeeds. -/
theorem c9_validator_threshold_witness :
    fetchAllSteamData (fun l => l) (fun _ _ => none) 1 50000 [] [] [] =
      Except.error (mkValidationError 0 1) ∧
    fetchAllSteamData (fun l => l) (fun _ _ => none) 1 50000
        [⟨10, 3, 500, 600⟩] [] [] =
      Except.ok (assignRanks (sortByPlayersDesc
        (pipelineGames (fun l => l) (fun _ _ => none) 50000
          [⟨10, 3, 500, 600⟩] [] []))) :=
  ⟨(c9_validator_threshold (fun l => l) (fun _ _ => none) 1 50000 [] [] []).1
      (by decide),
   (c9_validator_threshold (fun l => l) (fun _ _ => none) 1 50000
      [⟨10, 3, 500, 600⟩] [] []).2.1 (by decide)⟩

/-! ## Dispatch schedule of the concurrent fetchers (claim C2)

A lookup's life is abstracted to two events: `start` (the request is
dispatched, i.e. `fetch`/`fetchWithRetry` is invoked) and `settle` (its
promise resolves or its retries are exhausted).  JavaScript is
single-threaded: synchronous code runs to completion before any promise
continuation, so every `start` performed inside a synchronous
`Array.prototype.map` precedes every `settle` of those requests. -/

/-- A scheduling event of the fetch phase. -/
inductive FetchEvent where
  | start (id : Nat)
  | settle (id : Nat)
deriving DecidableEq, Repr

/-- Is the event a dispatch? -/
def isStart : FetchEvent → Bool
  | FetchEvent.start _ => true
  | FetchEvent.settle _ => false

/-- Is the event a settlement? -/
def isSettle : FetchEvent → Bool
  | FetchEvent.start _ => false
  | FetchEvent.settle _ => true

/-- Number of in-flight lookups after a prefix of events. -/
def outstanding (t : List FetchEvent) : Nat :=
  t.countP isStart - t.countP isSettle

/-- Largest number of simultaneously outstanding lookups over a trace. -/
def maxOutstanding (t : List FetchEvent) : Nat :=
  (t.inits.map outstanding).foldl max 0

/-- Dispatch schedule of `fetchPlayerCountsParallel` in `part_000`: the
expression `const promises = appIds.map(appId =>
this.fetchWithRetry(url)...)` invokes `fetchWithRetry` — dispatching the
request — for every id synchronously, before the batching loop reaches
its first `await Promise.all`; hence all starts precede all settles.
(The settle order chosen here is irrelevant: any permutation gives the
same prefix after the starts.) -/
def part000DispatchTrace (appIds : List Nat) : List FetchEvent :=
  appIds.map FetchEvent.start ++ appIds.map FetchEvent.settle

/-- `gamesList.slice(i, i + MAX_CONCURRENT_REQUESTS)` batching, with the
list length as recursion fuel. -/
def chunksOfAux {α : Type} (k : Nat) : Nat → List α → List (List α)
  | 0, _ => []
  | _, [] => []
  | fuel + 1, l => l.take k :: chunksOfAux k fuel (l.drop k)

/-- The batches of `processGamesInBatches`. -/
def chunksOf {α : Type} (k : Nat) (l : List α) : List (List α) :=
  chunksOfAux k l.length l

/-- Dispatch schedule of `processGamesInBatches` in
`fetch-steam-charts.js`: each iteration creates the promises of one
batch (at most `MAX_CONCURRENT_REQUESTS` dispatches) and `await
Promise.all(promises)` settles the whole batch before the next
iteration; the worst-case trace settles a batch only after all its
starts. -/
def processGamesInBatchesTrace (k : Nat) (appIds : List Nat) : List FetchEvent :=
  (chunksOf k appIds).flatMap
    (fun b => b.map FetchEvent.start ++ b.map FetchEvent.settle)

/-- C2: evaluation at the failing input.  For the identifier list
`[1, 2, 3]` and concurrency limit `K = 2`, `part_000`'s
`fetchPlayerCountsParallel` has all 3 lookups outstanding at once
(every `fetchWithRetry` is invoked inside the synchronous `map`, before
the first window is awaited), exceeding `K`; the genuinely windowed
`processGamesInBatches` of `fetch-steam-charts.js` peaks at exactly
`K = 2` on the same input. -/
theorem c2_dispatch_trace_eval :
    maxOutstanding (part000DispatchTrace [1, 2, 3]) = 3 ∧
    2 < maxOutstanding (part000DispatchTrace [1, 2, 3]) ∧
    maxOutstanding (processGamesInBatchesTrace 2 [1, 2, 3]) = 2 := by
  refine ⟨?_, ?_, ?_⟩ <;> decide

/-! ## Session cache of `part_001` (`SteamChartsSync`, claim C10)

`fetchSingleGamePlayerCount` consults `this.playerCache` first; a hit
increments `stats.cachedGames` and returns the cached object without any
remote call.  Otherwise one `axios.get` is made: on a structured
response (`response.data && response.data.response`) the stats object is
built, cached and returned after `stats.apiCalls++`; a response without
the `response` field still counts the API call but is NOT cached; a
thrown request increments `stats.errors` only.  `lastUpdated` is
omitted (no claim concerns it); `Math.floor(playerCount * 1.2)` is
modelled exactly over `ℕ` as `playerCount * 12 / 10`. -/

/-- The per-game stats object cached by `part_001`. -/
structure PlayerStatsResult where
  currentPlayers : Nat
  peak24h : Nat
  peakAllTime : Nat
deriving DecidableEq, Repr

/-- The counters of `this.stats` touched by `fetchSingleGamePlayerCount`. -/
structure SyncStats where
  apiCalls : Nat
  cachedGames : Nat
  errors : Nat
deriving DecidableEq, Repr

/-- Session state: counters plus the `playerCache` map. -/
structure SyncState where
  stats : SyncStats
  playerCache : List (Nat × PlayerStatsResult)
deriving DecidableEq, Repr

/-- Outcome of the single `axios.get` of a non-cached lookup. -/
inductive AxiosOutcome where
  | throws
  | noResponseField
  | ok (player_count : Nat)
deriving DecidableEq, Repr

/-- The stats object built and cached for a structured response. -/
def statsResultOf (playerCount : Nat) : PlayerStatsResult :=
  { currentPlayers := playerCount,
    peak24h := playerCount * 12 / 10,
    peakAllTime := playerCount * 2 }

/-- `fetchSingleGamePlayerCount(appId)` of `part_001` as a state
transformer, given the outcome of the remote call it would make. -/
def fetchSingleGamePlayerCount (axios : AxiosOutcome) (st : SyncState)
    (appId : Nat) : PlayerStatsResult × SyncState :=
  match mapGet st.playerCache appId with
  | some cached =>
      (cached,
       { st with stats := { st.stats with cachedGames := st.stats.cachedGames + 1 } })
  | none =>
    match axios with
    | AxiosOutcome.throws =>
        (⟨0, 0, 0⟩,
         { st with stats := { st.stats with errors := st.stats.errors + 1 } })
    | AxiosOutcome.noResponseField =>
        (⟨0, 0, 0⟩,
         { st with stats := { st.stats with apiCalls := st.stats.apiCalls + 1 } })
    | AxiosOutcome.ok playerCount =>
        (statsResultOf playerCount,
         { stats := { st.stats with apiCalls := st.stats.apiCalls + 1 },
           playerCache := mapSet st.playerCache appId (statsResultOf playerCount) })

theorem fetchSingle_hit (axios : AxiosOutcome) (st : SyncState) (appId : Nat)
    (cached : PlayerStatsResult) (h : mapGet st.playerCache appId = some cached) :
    fetchSingleGamePlayerCount axios st appId =
      (cached,
       { st with stats := { st.stats with cachedGames := st.stats.cachedGames + 1 } }) := by
  rw [fetchSingleGamePlayerCount.eq_def, h]

theorem fetchSingle_miss_throws (st : SyncState) (appId : Nat)
    (h : mapGet st.playerCache appId = none) :
    fetchSingleGamePlayerCount AxiosOutcome.throws st appId =
      (⟨0, 0, 0⟩,
       { st with stats := { st.stats with errors := st.stats.errors + 1 } }) := by
  rw [fetchSingleGamePlayerCount.eq_def, h]

theorem fetchSingle_miss_noResp (st : SyncState) (appId : Nat)
    (h : mapGet st.playerCache appId = none) :
    fetchSingleGamePlayerCount AxiosOutcome.noResponseField st appId =
      (⟨0, 0, 0⟩,
       { st with stats := { st.stats with apiCalls := st.stats.apiCalls + 1 } }) := by
  rw [fetchSingleGamePlayerCount.eq_def, h]

theorem fetchSingle_miss_ok (st : SyncState) (appId : Nat) (playerCount : Nat)
    (h : mapGet st.playerCache appId = none) :
    fetchSingleGamePlayerCount (AxiosOutcome.ok playerCount) st appId =
      (statsResultOf playerCount,
       { stats := { st.stats with apiCalls := st.stats.apiCalls + 1 },
         playerCache := mapSet st.playerCache appId (statsResultOf playerCount) }) := by
  rw [fetchSingleGamePlayerCount.eq_def, h]

/-- C10: only structured successful responses are cached.  A failed
lookup (thrown request or body without the `response` field) returns the
zero result and leaves the cache unchanged, so a later lookup of the
same identifier misses the cache again and performs a new remote call
(the API-call counter advances on that later lookup); a structured
response is cached; and once an identifier has a cached entry, a lookup
returns exactly that value, increments the cache-hit counter by one,
performs no remote call, and leaves the API-call counter, the error
counter and the cache itself unchanged. -/
theorem c10_cache_success_only :
    (∀ (st : SyncState) (appId : Nat),
      mapGet st.playerCache appId = none →
      ((fetchSingleGamePlayerCount AxiosOutcome.throws st appId).1 = ⟨0, 0, 0⟩ ∧
       (fetchSingleGamePlayerCount AxiosOutcome.throws st appId).2.playerCache
         = st.playerCache) ∧
      ((fetchSingleGamePlayerCount AxiosOutcome.noResponseField st appId).1 = ⟨0, 0, 0⟩ ∧
       (fetchSingleGamePlayerCount AxiosOutcome.noResponseField st appId).2.playerCache
         = st.playerCache) ∧
      (∀ playerCount,
        (fetchSingleGamePlayerCount (AxiosOutcome.ok playerCount)
            (fetchSingleGamePlayerCount AxiosOutcome.throws st appId).2
            appId).2.stats.apiCalls = st.stats.apiCalls + 1)) ∧
    (∀ (st : SyncState) (appId playerCount : Nat),
      mapGet st.playerCache appId = none →
      mapGet (fetchSingleGamePlayerCount (AxiosOutcome.ok playerCount) st
          appId).2.playerCache appId = some (statsResultOf playerCount)) ∧
    (∀ (axios : AxiosOutcome) (st : SyncState) (appId : Nat)
       (cached : PlayerStatsResult),
      mapGet st.playerCache appId = some cached →
      (fetchSingleGamePlayerCount axios st appId).1 = cached ∧
      (fetchSingleGamePlayerCount axios st appId).2.stats.cachedGames
        = st.stats.cachedGames + 1 ∧
      (fetchSingleGamePlayerCount axios st appId).2.stats.apiCalls
        = st.stats.apiCalls ∧
      (fetchSingleGamePlayerCount axios st appId).2.stats.errors
        = st.stats.errors ∧
      (fetchSingleGamePlayerCount axios st appId).2.playerCache
        = st.playerCache) := by
  refine ⟨?_, ?_, ?_⟩
  · intro st appId h
    refine ⟨?_, ?_, ?_⟩
    · rw [fetchSingle_miss_throws st appId h]
      exact ⟨rfl, rfl⟩
    · rw [fetchSingle_miss_noResp st appId h]
      exact ⟨rfl, rfl⟩
    · intro playerCount
      have h2 : mapGet (fetchSingleGamePlayerCount AxiosOutcome.throws st
          appId).2.playerCache appId = none := by
        rw [fetchSingle_miss_throws st appId h]; exact h
      rw [fetchSingle_miss_ok _ appId playerCount h2,
        fetchSingle_miss_throws st appId h]
  · intro st appId playerCount h
    rw [fetchSingle_miss_ok st appId playerCount h]
    exact mapGet_mapSet_self st.playerCache appId (statsResultOf playerCount)
  · intro axios st appId cached h
    rw [fetchSingle_hit axios st appId cached h]
    exact ⟨rfl, rfl, rfl, rfl, rfl⟩

/-- C10 (witness): the cache-discipline theorem applied to the empty
session state (id 5 missing, so a failed lookup stays uncached and a
structured response for metric 9 is cached) and to a state already
caching id 5 (the hit returns the cached value and advances only the
cache-hit counter). -/
theorem c10_cache_success_only_witness :
    ((fetchSingleGamePlayerCount AxiosOutcome.throws ⟨⟨0, 0, 0⟩, []⟩ 5).2.playerCache
      = [] ) ∧
    mapGet (fetchSingleGamePlayerCount (AxiosOutcome.ok 9) ⟨⟨0, 0, 0⟩, []⟩
        5).2.playerCache 5 = some (statsResultOf 9) ∧
    (fetchSingleGamePlayerCount AxiosOutcome.throws
        ⟨⟨3, 0, 0⟩, [(5, statsResultOf 9)]⟩ 5).1 = statsResultOf 9 ∧
    (fetchSingleGamePlayerCount AxiosOutcome.throws
        ⟨⟨3, 0, 0⟩, [(5, statsResultOf 9)]⟩ 5).2.stats.apiCalls = 3 :=
  ⟨((c10_cache_success_only.1 ⟨⟨0, 0, 0⟩, []⟩ 5 rfl).1).2,
   c10_cache_success_only.2.1 ⟨⟨0, 0, 0⟩, []⟩ 5 9 rfl,
   (c10_cache_success_only.2.2 AxiosOutcome.throws
      ⟨⟨3, 0, 0⟩, [(5, statsResultOf 9)]⟩ 5 (statsResultOf 9) rfl).1,
   (c10_cache_success_only.2.2 AxiosOutcome.throws
      ⟨⟨3, 0, 0⟩, [(5, statsResultOf 9)]⟩ 5 (statsResultOf 9) rfl).2.2.1⟩
